import Mathlib

/-!
Verification of the frontend-hud diagnostics provider and endpoint.

This file is a shallow embedding of the two build-tool plugin templates of the
repository:

* `src/templates/vite-hud-plugin.ts` (the Vite provider), embedded in the
  `FrontendHud.Vite` namespace, and
* the Webpack provider (`HudWebpackPlugin` and `hudDevServerMiddleware`,
  shipped in `src/templates/vue-hud.vue` after the component section),
  embedded in the `FrontendHud.Webpack` namespace.

Modelling conventions:

* `readFileSync` and `JSON.parse`, which throw on failure, are embedded as
  `Option`-valued inputs (`none` models the thrown path that the source
  catches); every embedded function is total, which is exactly the
  fail-soft/catch-all behaviour of the source.
* Machine time (`Date.now()`) is a `Nat` millisecond timestamp passed
  explicitly; `Math.floor(x / 1000)` on nonnegative values is `Nat` division.
* The HTTP response written by `res.end(JSON.stringify({...}))` is embedded as
  a structured `HudResponse` value: the status is Node's default `200`, the
  two headers are those set by `setHeader`, and the body record carries
  exactly the four serialized fields (JSON serialization of this fixed-shape
  record is injective and is elided).
* Event hooks mutating the module-scope counters are embedded as a step
  function on an explicit counter state, folded over a list of events.
-/

namespace FrontendHud

/-- JavaScript truthiness of a string value: only the empty string is falsy
(among the string values that can occur here). Used for `if (deps[k])`,
`webpack.version || '--'` and similar guards in the source. -/
def jsTruthy (s : String) : Bool := s ≠ ""

/-- The parse result of `package.json`: the two dependency maps the detectors
read. JSON objects are embedded as association lists. -/
structure Manifest where
  dependencies : List (String × String)
  devDependencies : List (String × String)
deriving Repr, DecidableEq

/-- Lookup in `{ ...pkg.dependencies, ...pkg.devDependencies }`: the spread of
`devDependencies` second means its entries override `dependencies`. -/
def Manifest.depGet (m : Manifest) (k : String) : Option String :=
  match m.devDependencies.find? (fun p => p.1 == k) with
  | some p => some p.2
  | none => (m.dependencies.find? (fun p => p.1 == k)).map (fun p => p.2)

/-- The guard `if (deps[k])`: present and truthy. -/
def Manifest.depTruthy (m : Manifest) (k : String) : Bool :=
  match m.depGet k with
  | some v => jsTruthy v
  | none => false

/-- The value `deps[k]` used as the version string once the guard passed. -/
def Manifest.depVal (m : Manifest) (k : String) : String :=
  (m.depGet k).getD ""

/-- A project root directory as the detectors observe it:
`packageJson` is the combined result of `readFileSync` + `JSON.parse` on
`package.json` (`none` when either throws), and `lockReadable f` tells whether
`readFileSync(resolve(root, f))` succeeds for a lockfile name `f`. -/
structure ProjectRoot where
  packageJson : Option Manifest
  lockReadable : String → Bool

/-- Result shape of `detectFramework`. -/
structure Framework where
  name : String
  version : String
deriving Repr, DecidableEq

/-- The lockfile names probed by `detectPackageManager`, in source order. -/
def lockfileNames : List String :=
  ["bun.lockb", "yarn.lock", "pnpm-lock.yaml", "package-lock.json"]

/-- The package-manager names paired index-wise with `lockfileNames`. -/
def managerNames : List String :=
  ["bun", "yarn", "pnpm", "npm"]

/-- The `for` loop of `detectPackageManager`: return the manager of the first
readable lockfile, `"npm"` when the list is exhausted. The `try`/`catch`
around each `readFileSync` is the `Bool` test. -/
def detectPackageManagerLoop (readable : String → Bool) :
    List (String × String) → String
  | [] => "npm"
  | (file, manager) :: rest =>
    if readable file then manager else detectPackageManagerLoop readable rest

/-- `detectPackageManager` as shipped (identically) in both the Vite and the
Webpack template; the extra outer `try`/`catch` of the Vite copy is dead code
because the loop body already catches every read failure. -/
def detectPackageManager (root : ProjectRoot) : String :=
  detectPackageManagerLoop root.lockReadable (lockfileNames.zip managerNames)

/-- `detectRuntime`, identical in both templates: prefer a truthy
`process.versions.bun`, otherwise report node with `process.version`. -/
def detectRuntime (bunVersion : Option String) (nodeVersion : String) :
    String × String :=
  match bunVersion with
  | some v => if jsTruthy v then ("bun", v) else ("node", nodeVersion)
  | none => ("node", nodeVersion)

/-- `version.replace(/[\x5e~]/, '')` on a char list: the regex has no `g`
flag, so only the first caret or tilde is removed. -/
def removeFirstCaretTilde : List Char → List Char
  | [] => []
  | c :: cs => if c == '^' || c == '~' then cs else c :: removeFirstCaretTilde cs

/-- `version.replace(/[\x5e~]/, '')` on strings. -/
def replaceCaretTilde (s : String) : String :=
  String.mk (removeFirstCaretTilde s.toList)

/-- The body written by the `/__hud` endpoint:
`JSON.stringify({ moduleCount, openConnections, errorCount, uptime })`.
The record has exactly these four fields. -/
structure HudBody where
  moduleCount : Nat
  openConnections : Nat
  errorCount : Nat
  uptime : Nat
deriving Repr, DecidableEq

/-- The HTTP response produced for `/__hud`: Node's default status 200 plus
the two headers set via `setHeader`, and the JSON body. -/
structure HudResponse where
  status : Nat
  contentType : String
  cacheControl : String
  body : HudBody
deriving Repr, DecidableEq

/-- Outcome of one middleware invocation: either a response was written and
the handler returned, or nothing was written and `next()` was invoked. -/
inductive HandlerResult where
  | respond (r : HudResponse)
  | passThrough
deriving Repr, DecidableEq

namespace Vite

/-- `detectFramework` of the Vite template: first truthy marker in the fixed
order sveltekit, nuxt, nextjs, vue, react wins; read/parse failure or no
marker yields the build-tool default. -/
def detectFramework (root : ProjectRoot) : Framework :=
  match root.packageJson with
  | none => { name := "vite", version := "--" }
  | some pkg =>
    if pkg.depTruthy "@sveltejs/kit" then
      { name := "sveltekit", version := pkg.depVal "@sveltejs/kit" }
    else if pkg.depTruthy "nuxt" then
      { name := "nuxt", version := pkg.depVal "nuxt" }
    else if pkg.depTruthy "next" then
      { name := "nextjs", version := pkg.depVal "next" }
    else if pkg.depTruthy "vue" then
      { name := "vue", version := pkg.depVal "vue" }
    else if pkg.depTruthy "react" then
      { name := "react", version := pkg.depVal "react" }
    else
      { name := "vite", version := "--" }

/-- The dependency-marker precedence list of the Vite `detectFramework`:
marker package paired with the reported framework name, in source order. -/
def frameworkMarkers : List (String × String) :=
  [("@sveltejs/kit", "sveltekit"), ("nuxt", "nuxt"), ("next", "nextjs"),
   ("vue", "vue"), ("react", "react")]

/-- The static diagnostics object of the Vite template. -/
structure HudDiagnostics where
  framework : String
  frameworkVersion : String
  viteVersion : String
  nodeVersion : String
  runtime : String
  runtimeVersion : String
  packageManager : String
  port : Nat
  host : String
  https : Bool
  base : String
  mode : String
  envPrefix : List String
  plugins : List String
  cliFlags : List String
  moduleCount : Nat
  resolvedAliases : List (String × String)
deriving Repr, DecidableEq

/-- `EMPTY_DIAGNOSTICS`: the all-default object served outside dev mode. -/
def EMPTY_DIAGNOSTICS : HudDiagnostics :=
  { framework := ""
    frameworkVersion := ""
    viteVersion := ""
    nodeVersion := ""
    runtime := ""
    runtimeVersion := ""
    packageManager := ""
    port := 0
    host := ""
    https := false
    base := "/"
    mode := "production"
    envPrefix := []
    plugins := []
    cliFlags := []
    moduleCount := 0
    resolvedAliases := [] }

/-- `VIRTUAL_MODULE_ID`. -/
def VIRTUAL_MODULE_ID : String := "virtual:hud-diagnostics"

/-- `RESOLVED_VIRTUAL_MODULE_ID = '\0' + VIRTUAL_MODULE_ID`. -/
def RESOLVED_VIRTUAL_MODULE_ID : String := "\x00" ++ VIRTUAL_MODULE_ID

/-- The `resolveId` hook. -/
def resolveId (id : String) : Option String :=
  if id = VIRTUAL_MODULE_ID then some RESOLVED_VIRTUAL_MODULE_ID else none

/-- `isServe = resolvedConfig.command === 'serve'` (set in `configResolved`). -/
def isServe (command : String) : Bool := command == "serve"

/-- The `load` hook: for the resolved virtual module id it exports
`diagnostics` in serve mode and `EMPTY_DIAGNOSTICS` otherwise; any other id
is not handled. The result is the exported data object (the
`export default JSON.stringify(...)` wrapper is elided as injective). -/
def load (serving : Bool) (diagnostics : HudDiagnostics) (id : String) :
    Option HudDiagnostics :=
  if id = RESOLVED_VIRTUAL_MODULE_ID then
    some (if serving then diagnostics else EMPTY_DIAGNOSTICS)
  else
    none

/-- The three module-scope live counters of the Vite plugin closure. -/
structure Counters where
  moduleCount : Nat
  openConnections : Nat
  errorCount : Nat
deriving Repr, DecidableEq

/-- Counter values at plugin construction (`let moduleCount = 0` etc.). -/
def initialCounters : Counters :=
  { moduleCount := 0, openConnections := 0, errorCount := 0 }

/-- The events whose handlers `configureServer` registers: the 2-second
module-count poll (carrying `server.moduleGraph.idToModuleMap.size`), a
`server.ws` connection, and a `server.ws` error. -/
inductive Event where
  | modulePoll (size : Nat)
  | wsConnection
  | wsError
deriving Repr, DecidableEq

/-- Effect of one event on the counters, exactly as the three handlers in
`configureServer` mutate them: the poll overwrites `moduleCount`, a
connection increments `openConnections` (there is no decrementing handler),
an error increments `errorCount`. -/
def step (s : Counters) : Event → Counters
  | .modulePoll n => { s with moduleCount := n }
  | .wsConnection => { s with openConnections := s.openConnections + 1 }
  | .wsError => { s with errorCount := s.errorCount + 1 }

/-- The counter state after a sequence of dispatched events (the dev server
dispatches handlers sequentially, in order). -/
def run (s : Counters) (events : List Event) : Counters :=
  events.foldl step s

/-- The middleware registered by `server.middlewares.use`: on `req.url ===
'/__hud'` it sets the two headers and ends the response with the four-field
JSON body (uptime is `Math.floor((Date.now() - startTime) / 1000)`), then
returns; otherwise it calls `next()`. -/
def middleware (s : Counters) (startTime now : Nat) (url : String) :
    HandlerResult :=
  if url = "/__hud" then
    HandlerResult.respond
      { status := 200
        contentType := "application/json"
        cacheControl := "no-store"
        body :=
          { moduleCount := s.moduleCount
            openConnections := s.openConnections
            errorCount := s.errorCount
            uptime := (now - startTime) / 1000 } }
  else
    HandlerResult.passThrough

end Vite

namespace Webpack

/-- `detectFramework` of the Webpack template: first truthy marker in the
fixed order cra (react-scripts), nextjs, react, vue; default `webpack`. -/
def detectFramework (root : ProjectRoot) : Framework :=
  match root.packageJson with
  | none => { name := "webpack", version := "--" }
  | some pkg =>
    if pkg.depTruthy "react-scripts" then
      { name := "cra", version := pkg.depVal "react-scripts" }
    else if pkg.depTruthy "next" then
      { name := "nextjs", version := pkg.depVal "next" }
    else if pkg.depTruthy "react" then
      { name := "react", version := pkg.depVal "react" }
    else if pkg.depTruthy "vue" then
      { name := "vue", version := pkg.depVal "vue" }
    else
      { name := "webpack", version := "--" }

/-- The dependency-marker precedence list of the Webpack `detectFramework`. -/
def frameworkMarkers : List (String × String) :=
  [("react-scripts", "cra"), ("next", "nextjs"), ("react", "react"),
   ("vue", "vue")]

/-- The static diagnostics object of the Webpack template (injected as the
`__HUD_DIAGNOSTICS__` global through `DefinePlugin`). -/
structure HudDiagnostics where
  framework : String
  frameworkVersion : String
  webpackVersion : String
  nodeVersion : String
  runtime : String
  runtimeVersion : String
  packageManager : String
  port : Nat
  host : String
  https : Bool
  base : String
  mode : String
  plugins : List String
  cliFlags : List String
deriving Repr, DecidableEq

/-- The `devServer` config fields `apply` reads for its overrides; each field
is checked for truthiness before overriding (`0`, `''` and absence do not
override). -/
structure DevServerConfig where
  port : Option Nat
  host : Option String
  https : Bool

/-- The environment `HudWebpackPlugin.apply` observes through `compiler` and
`process`. `envPORT` models `process.env.PORT` after
`parseInt(... || '3000', 10)` (`none` for unset/empty, yielding the 3000
default); `pluginCtorNames` models `compiler.options.plugins.map(p =>
p?.constructor?.name)` with `none` for a missing constructor name. -/
structure Env where
  mode : String
  root : ProjectRoot
  webpackVersion : String
  nodeVersion : String
  bunVersion : Option String
  envPORT : Option Nat
  envHOST : Option String
  publicPath : Option String
  pluginCtorNames : List (Option String)
  cliFlags : List String
  devServer : Option DevServerConfig

/-- The externally visible effects of `HudWebpackPlugin.apply`:
`injectedGlobal` is the value `DefinePlugin` defines `__HUD_DIAGNOSTICS__`
to (`none` when `DefinePlugin` is never applied, leaving the global
undefined), and `doneHookRegistered` records whether the `compiler.hooks.done`
tap was installed. -/
structure ApplyResult where
  injectedGlobal : Option HudDiagnostics
  doneHookRegistered : Bool
deriving DecidableEq

/-- `HudWebpackPlugin.apply`: returns immediately when
`compiler.options.mode !== 'development'` (so neither the global injection
nor the done hook happens); in development it computes the diagnostics
snapshot (detection, version reads, devServer overrides) and applies
`DefinePlugin` and the done tap. -/
def apply (env : Env) : ApplyResult :=
  if env.mode ≠ "development" then
    { injectedGlobal := none, doneHookRegistered := false }
  else
    let fw := detectFramework env.root
    let rt := detectRuntime env.bunVersion env.nodeVersion
    let diagnostics : HudDiagnostics :=
      { framework := fw.name
        frameworkVersion := replaceCaretTilde fw.version
        webpackVersion :=
          if jsTruthy env.webpackVersion then env.webpackVersion else "--"
        nodeVersion := env.nodeVersion
        runtime := rt.1
        runtimeVersion := rt.2
        packageManager := detectPackageManager env.root
        port := env.envPORT.getD 3000
        host :=
          match env.envHOST with
          | some h => if jsTruthy h then h else "localhost"
          | none => "localhost"
        https := false
        base :=
          match env.publicPath with
          | some b => if jsTruthy b then b else "/"
          | none => "/"
        mode := "development"
        plugins :=
          (env.pluginCtorNames.filterMap id).filter
            (fun n => jsTruthy n && n ≠ "Object")
        cliFlags := env.cliFlags }
    let withOverrides :=
      match env.devServer with
      | none => diagnostics
      | some ds =>
        let d1 :=
          match ds.port with
          | some p => if p ≠ 0 then { diagnostics with port := p } else diagnostics
          | none => diagnostics
        let d2 :=
          match ds.host with
          | some h => if jsTruthy h then { d1 with host := h } else d1
          | none => d1
        if ds.https then { d2 with https := true } else d2
    { injectedGlobal := some withOverrides, doneHookRegistered := true }

/-- The two module-scope live counters of the Webpack template (there is no
`openConnections` variable at all). -/
structure Counters where
  moduleCount : Nat
  errorCount : Nat
deriving Repr, DecidableEq

/-- Counter values at module load (`let moduleCount = 0; let errorCount = 0`). -/
def initialCounters : Counters :=
  { moduleCount := 0, errorCount := 0 }

/-- What one `compiler.hooks.done` invocation carries:
`stats.toJson(...).modules?.length` and `...errors?.length`
(`none` when the field is absent). -/
structure DoneStats where
  modulesLength : Option Nat
  errorsLength : Option Nat
deriving Repr, DecidableEq

/-- The done tap: `moduleCount = info.modules?.length || 0;
errorCount = info.errors?.length || 0` — both counters are overwritten
wholesale on every compilation (for a `Nat` value, `x || 0` coincides with
`getD 0` because `0 || 0` is `0`). -/
def onDone (s : Counters) (stats : DoneStats) : Counters :=
  { s with
    moduleCount := stats.modulesLength.getD 0
    errorCount := stats.errorsLength.getD 0 }

/-- Counter state after a sequence of done events. -/
def runDone (s : Counters) (events : List DoneStats) : Counters :=
  events.foldl onDone s

/-- `hudDevServerMiddleware`: on `req.url === '/__hud'` it writes the same
response shape as the Vite middleware, except that `openConnections` is the
literal constant `0` (commented "Webpack doesn't expose this easily");
otherwise it calls `next()`. -/
def hudDevServerMiddleware (s : Counters) (startTime now : Nat)
    (url : String) : HandlerResult :=
  if url = "/__hud" then
    HandlerResult.respond
      { status := 200
        contentType := "application/json"
        cacheControl := "no-store"
        body :=
          { moduleCount := s.moduleCount
            openConnections := 0
            errorCount := s.errorCount
            uptime := (now - startTime) / 1000 } }
  else
    HandlerResult.passThrough

end Webpack

/-- A concrete production-mode Webpack environment, used to exhibit the
behaviour of `HudWebpackPlugin.apply` outside development mode. -/
def prodEnvExample : Webpack.Env :=
  { mode := "production"
    root := { packageJson := none, lockReadable := fun _ => false }
    webpackVersion := "5.90.0"
    nodeVersion := "v20.11.0"
    bunVersion := none
    envPORT := none
    envHOST := none
    publicPath := none
    pluginCtorNames := []
    cliFlags := []
    devServer := none }

/-! Helper lemmas about the embedded operations. -/

theorem Vite.run_cons (s : Vite.Counters) (e : Vite.Event)
    (es : List Vite.Event) :
    Vite.run s (e :: es) = Vite.run (Vite.step s e) es := rfl

theorem Vite.middleware_hud_response (s : Vite.Counters) (startTime now : Nat) :
    Vite.middleware s startTime now "/__hud"
      = HandlerResult.respond
          { status := 200
            contentType := "application/json"
            cacheControl := "no-store"
            body :=
              { moduleCount := s.moduleCount
                openConnections := s.openConnections
                errorCount := s.errorCount
                uptime := (now - startTime) / 1000 } } := by
  simp [Vite.middleware]

theorem Webpack.middleware_hud_zero (s : Webpack.Counters)
    (startTime now : Nat) :
    Webpack.hudDevServerMiddleware s startTime now "/__hud"
      = HandlerResult.respond
          { status := 200
            contentType := "application/json"
            cacheControl := "no-store"
            body :=
              { moduleCount := s.moduleCount
                openConnections := 0
                errorCount := s.errorCount
                uptime := (now - startTime) / 1000 } } := by
  simp [Webpack.hudDevServerMiddleware]

theorem Vite.errorCount_run_replicate (s : Vite.Counters) (n : Nat) :
    (Vite.run s (List.replicate n Vite.Event.wsError)).errorCount
      = s.errorCount + n := by
  induction n generalizing s with
  | zero => simp [Vite.run]
  | succ k ih =>
    rw [List.replicate_succ, Vite.run_cons, ih]
    simp [Vite.step]
    omega

theorem Vite.errorCount_step_mono (s : Vite.Counters) (e : Vite.Event) :
    s.errorCount ≤ (Vite.step s e).errorCount := by
  cases e <;> simp [Vite.step]

theorem Vite.openConnections_step_mono (s : Vite.Counters) (e : Vite.Event) :
    s.openConnections ≤ (Vite.step s e).openConnections := by
  cases e <;> simp [Vite.step]

theorem Vite.openConnections_run_mono (s : Vite.Counters)
    (es : List Vite.Event) :
    s.openConnections ≤ (Vite.run s es).openConnections := by
  induction es generalizing s with
  | nil => exact Nat.le_refl _
  | cons e es ih =>
    rw [Vite.run_cons]
    exact Nat.le_trans (Vite.openConnections_step_mono s e) (ih _)

theorem Vite.run_lastPoll_moduleCount (s : Vite.Counters) (cs : List Nat)
    (c : Nat) :
    (Vite.run s ((cs ++ [c]).map Vite.Event.modulePoll)).moduleCount = c := by
  simp [Vite.run, List.map_append, List.foldl_append, Vite.step]

theorem Webpack.runDone_last_moduleCount (s : Webpack.Counters)
    (cs : List Nat) (c : Nat) :
    (Webpack.runDone s ((cs ++ [c]).map
        (fun k => { modulesLength := some k, errorsLength := none }))).moduleCount
      = c := by
  simp [Webpack.runDone, List.map_append, List.foldl_append, Webpack.onDone]

/-! The claims. -/

/-- Claim C1 (amended): in the Vite provider, after any N ws error events the
/__hud endpoint reports an errorCount of exactly the initial value plus N,
and no event handler ever decreases errorCount. In the Webpack provider, by
contrast, the error hook (the compilation done tap) does not accumulate:
each done event overwrites errorCount with that compilation's error-list
length (last-write-wins), so the count can decrease. -/
theorem errorCount_accumulation :
    (∀ (s : Vite.Counters) (n startTime now : Nat),
      ∃ r, Vite.middleware (Vite.run s (List.replicate n Vite.Event.wsError))
              startTime now "/__hud" = HandlerResult.respond r
          ∧ r.body.errorCount = s.errorCount + n)
    ∧ (∀ (s : Vite.Counters) (e : Vite.Event),
      s.errorCount ≤ (Vite.step s e).errorCount)
    ∧ (∀ (s : Webpack.Counters) (stats : Webpack.DoneStats),
      (Webpack.onDone s stats).errorCount = stats.errorsLength.getD 0) := by
  refine ⟨fun s n startTime now => ⟨_, Vite.middleware_hud_response _ _ _, ?_⟩,
    Vite.errorCount_step_mono, fun s stats => rfl⟩
  simpa using Vite.errorCount_run_replicate s n

/-- Claim C1, counterexample: in the Webpack variant errorCount is not
monotonic — after a compilation with 3 errors followed by a compilation with
1 error, the reported errorCount has decreased (and equals 1, not the number
of error events). -/
theorem webpack_errorCount_decreases :
    (Webpack.runDone Webpack.initialCounters
        [{ modulesLength := some 10, errorsLength := some 3 },
         { modulesLength := some 10, errorsLength := some 1 }]).errorCount
      < (Webpack.runDone Webpack.initialCounters
        [{ modulesLength := some 10, errorsLength := some 3 }]).errorCount := by
  decide

/-- Claim C2 (amended): when the Vite command is not serve, the virtual
static-diagnostics module resolves to the all-default EMPTY_DIAGNOSTICS
object. When the Webpack mode is not development, apply returns before doing
anything, so no __HUD_DIAGNOSTICS__ global is injected (the static channel is
absent rather than all-default) and no done hook is registered. In neither
variant is non-default diagnostics content produced. -/
theorem static_channel_non_dev :
    (∀ (command : String) (diagnostics : Vite.HudDiagnostics),
      command ≠ "serve" →
      Vite.load (Vite.isServe command) diagnostics
          Vite.RESOLVED_VIRTUAL_MODULE_ID
        = some Vite.EMPTY_DIAGNOSTICS)
    ∧ (∀ env : Webpack.Env, env.mode ≠ "development" →
      Webpack.apply env
        = { injectedGlobal := none, doneHookRegistered := false }) := by
  constructor
  · intro command diagnostics h
    have hc : Vite.isServe command = false := by
      simp [Vite.isServe, h]
    simp [Vite.load, hc]
  · intro env h
    simp [Webpack.apply, h]

/-- Claim C2, counterexample: for a concrete production-mode Webpack
environment, apply injects no global at all — the static channel is absent
rather than resolving to an all-default-valued object. -/
theorem webpack_static_channel_absent :
    (Webpack.apply prodEnvExample).injectedGlobal = none := by
  simp [Webpack.apply, prodEnvExample]

/-- Claim C2, witness for the amended theorem. -/
theorem static_channel_non_dev_witness :
    Vite.load (Vite.isServe "build") Vite.EMPTY_DIAGNOSTICS
        Vite.RESOLVED_VIRTUAL_MODULE_ID = some Vite.EMPTY_DIAGNOSTICS
    ∧ Webpack.apply prodEnvExample
        = { injectedGlobal := none, doneHookRegistered := false } :=
  ⟨static_channel_non_dev.1 "build" Vite.EMPTY_DIAGNOSTICS (by decide),
   static_channel_non_dev.2 prodEnvExample (by decide)⟩

/-- Claim C3: on the exact url /__hud both middlewares respond with status
200, Content-Type application/json, Cache-Control no-store and the
four-field counter body; on any other url they write nothing and invoke the
next handler (pass-through), so no other path ever receives the diagnostics
body. -/
theorem endpoint_exact_path_contract (sv : Vite.Counters)
    (sw : Webpack.Counters) (startTime now : Nat) :
    (Vite.middleware sv startTime now "/__hud"
      = HandlerResult.respond
          { status := 200
            contentType := "application/json"
            cacheControl := "no-store"
            body :=
              { moduleCount := sv.moduleCount
                openConnections := sv.openConnections
                errorCount := sv.errorCount
                uptime := (now - startTime) / 1000 } })
    ∧ (Webpack.hudDevServerMiddleware sw startTime now "/__hud"
      = HandlerResult.respond
          { status := 200
            contentType := "application/json"
            cacheControl := "no-store"
            body :=
              { moduleCount := sw.moduleCount
                openConnections := 0
                errorCount := sw.errorCount
                uptime := (now - startTime) / 1000 } })
    ∧ (∀ url : String, url ≠ "/__hud" →
      Vite.middleware sv startTime now url = HandlerResult.passThrough)
    ∧ (∀ url : String, url ≠ "/__hud" →
      Webpack.hudDevServerMiddleware sw startTime now url
        = HandlerResult.passThrough) := by
  refine ⟨Vite.middleware_hud_response _ _ _, Webpack.middleware_hud_zero _ _ _,
    fun url h => ?_, fun url h => ?_⟩
  · simp [Vite.middleware, h]
  · simp [Webpack.hudDevServerMiddleware, h]

/-- Claim C3, witness. -/
theorem endpoint_exact_path_contract_witness :
    ("/other" : String) ≠ "/__hud"
    ∧ Vite.middleware Vite.initialCounters 0 0 "/other"
        = HandlerResult.passThrough
    ∧ Webpack.hudDevServerMiddleware Webpack.initialCounters 0 0 "/other"
        = HandlerResult.passThrough :=
  ⟨by decide,
   (endpoint_exact_path_contract Vite.initialCounters Webpack.initialCounters
      0 0).2.2.1 "/other" (by decide),
   (endpoint_exact_path_contract Vite.initialCounters Webpack.initialCounters
      0 0).2.2.2 "/other" (by decide)⟩

/-- Claim C4: on any manifest, each detectFramework variant returns the
highest-precedence truthy marker of its fixed precedence list (meta-framework
markers precede base-framework markers) and the build-tool default name when
no marker matches; in particular nuxt+vue reports nuxt and next+react reports
nextjs. -/
theorem detectFramework_precedence :
    (∀ pkg : Manifest,
      (Vite.detectFramework
          { packageJson := some pkg, lockReadable := fun _ => false }).name
        = (((Vite.frameworkMarkers.find?
              (fun m => pkg.depTruthy m.1)).map Prod.snd).getD "vite"))
    ∧ (∀ pkg : Manifest,
      (Webpack.detectFramework
          { packageJson := some pkg, lockReadable := fun _ => false }).name
        = (((Webpack.frameworkMarkers.find?
              (fun m => pkg.depTruthy m.1)).map Prod.snd).getD "webpack"))
    ∧ (Vite.detectFramework
        { packageJson := some
            { dependencies := [("nuxt", "3.13.0"), ("vue", "3.5.0")],
              devDependencies := [] },
          lockReadable := fun _ => false }).name = "nuxt"
    ∧ (Vite.detectFramework
        { packageJson := some
            { dependencies := [("next", "14.2.0"), ("react", "18.3.0")],
              devDependencies := [] },
          lockReadable := fun _ => false }).name = "nextjs"
    ∧ (Webpack.detectFramework
        { packageJson := some
            { dependencies := [("next", "14.2.0"), ("react", "18.3.0")],
              devDependencies := [] },
          lockReadable := fun _ => false }).name = "nextjs"
    ∧ (Vite.detectFramework
        { packageJson := some
            { dependencies := [("lodash", "4.17.21")],
              devDependencies := [] },
          lockReadable := fun _ => false }).name = "vite"
    ∧ (Webpack.detectFramework
        { packageJson := some
            { dependencies := [], devDependencies := [] },
          lockReadable := fun _ => false }).name = "webpack" := by
  refine ⟨?_, ?_, by decide, by decide, by decide, by decide, by decide⟩
  · intro pkg
    cases h1 : pkg.depTruthy "@sveltejs/kit" <;>
      cases h2 : pkg.depTruthy "nuxt" <;>
        cases h3 : pkg.depTruthy "next" <;>
          cases h4 : pkg.depTruthy "vue" <;>
            cases h5 : pkg.depTruthy "react" <;>
              simp [Vite.detectFramework, Vite.frameworkMarkers,
                List.find?, h1, h2, h3, h4, h5]
  · intro pkg
    cases h1 : pkg.depTruthy "react-scripts" <;>
      cases h2 : pkg.depTruthy "next" <;>
        cases h3 : pkg.depTruthy "react" <;>
          cases h4 : pkg.depTruthy "vue" <;>
            simp [Webpack.detectFramework, Webpack.frameworkMarkers,
              List.find?, h1, h2, h3, h4]

/-- Claim C5: for every combination of readable lockfiles,
detectPackageManager returns the manager of the first readable lockfile in
the fixed priority order bun.lockb, yarn.lock, pnpm-lock.yaml,
package-lock.json, and npm when none is readable. -/
theorem detectPackageManager_priority :
    (∀ root : ProjectRoot,
      detectPackageManager root
        = ((((lockfileNames.zip managerNames).find?
            (fun p => root.lockReadable p.1)).map Prod.snd).getD "npm"))
    ∧ detectPackageManager
        { packageJson := none,
          lockReadable := fun f => f == "bun.lockb" || f == "package-lock.json" }
        = "bun"
    ∧ detectPackageManager
        { packageJson := none,
          lockReadable := fun f => f == "yarn.lock" || f == "pnpm-lock.yaml" }
        = "yarn"
    ∧ detectPackageManager
        { packageJson := none,
          lockReadable := fun f => f == "pnpm-lock.yaml" || f == "package-lock.json" }
        = "pnpm"
    ∧ detectPackageManager
        { packageJson := none, lockReadable := fun f => f == "package-lock.json" }
        = "npm"
    ∧ detectPackageManager
        { packageJson := none, lockReadable := fun _ => false }
        = "npm" := by
  refine ⟨?_, by decide, by decide, by decide, by decide, by decide⟩
  intro root
  cases h1 : root.lockReadable "bun.lockb" <;>
    cases h2 : root.lockReadable "yarn.lock" <;>
      cases h3 : root.lockReadable "pnpm-lock.yaml" <;>
        cases h4 : root.lockReadable "package-lock.json" <;>
          simp [detectPackageManager, detectPackageManagerLoop,
            lockfileNames, managerNames, List.find?, h1, h2, h3, h4]

/-- Claim C6: after any nonempty sequence of module-graph-change events
carrying counts c1..cN, both variants report moduleCount equal to the last
count cN through the /__hud endpoint: each event overwrites the counter
wholesale, never accumulating. -/
theorem moduleCount_last_write_wins :
    (∀ (s : Vite.Counters) (cs : List Nat) (c startTime now : Nat),
      ∃ r, Vite.middleware
              (Vite.run s ((cs ++ [c]).map Vite.Event.modulePoll))
              startTime now "/__hud" = HandlerResult.respond r
          ∧ r.body.moduleCount = c)
    ∧ (∀ (s : Webpack.Counters) (cs : List Nat) (c startTime now : Nat),
      ∃ r, Webpack.hudDevServerMiddleware
              (Webpack.runDone s ((cs ++ [c]).map
                (fun k => { modulesLength := some k, errorsLength := none })))
              startTime now "/__hud" = HandlerResult.respond r
          ∧ r.body.moduleCount = c) := by
  constructor
  · intro s cs c startTime now
    refine ⟨_, Vite.middleware_hud_response _ _ _, ?_⟩
    simpa using Vite.run_lastPoll_moduleCount s cs c
  · intro s cs c startTime now
    refine ⟨_, Webpack.middleware_hud_zero _ _ _, ?_⟩
    simpa using Webpack.runDone_last_moduleCount s cs c

/-- Claim C7: the uptime served by /__hud at time T is exactly
floor((T - startedAt) / 1000) whole seconds (stated over the integers; exact
equality, hence within the claimed one-second tolerance), in both variants. -/
theorem uptime_floor_seconds (sv : Vite.Counters) (sw : Webpack.Counters)
    (startedAt T : Nat) (h : startedAt ≤ T) :
    (∃ r, Vite.middleware sv startedAt T "/__hud" = HandlerResult.respond r
        ∧ (r.body.uptime : ℤ) = ((T : ℤ) - (startedAt : ℤ)) / 1000)
    ∧ (∃ r, Webpack.hudDevServerMiddleware sw startedAt T "/__hud"
            = HandlerResult.respond r
        ∧ (r.body.uptime : ℤ) = ((T : ℤ) - (startedAt : ℤ)) / 1000) := by
  have key : (((T - startedAt) / 1000 : ℕ) : ℤ)
      = ((T : ℤ) - (startedAt : ℤ)) / 1000 := by
    rw [Int.natCast_div, Nat.cast_sub h]
    norm_num
  exact ⟨⟨_, Vite.middleware_hud_response _ _ _, by simpa using key⟩,
    ⟨_, Webpack.middleware_hud_zero _ _ _, by simpa using key⟩⟩

/-- Claim C7, witness. -/
theorem uptime_floor_seconds_witness :
    (0 : Nat) ≤ 5500
    ∧ ((∃ r, Vite.middleware Vite.initialCounters 0 5500 "/__hud"
            = HandlerResult.respond r
        ∧ (r.body.uptime : ℤ) = (((5500 : Nat) : ℤ) - ((0 : Nat) : ℤ)) / 1000)
      ∧ (∃ r, Webpack.hudDevServerMiddleware Webpack.initialCounters 0 5500
              "/__hud" = HandlerResult.respond r
        ∧ (r.body.uptime : ℤ) = (((5500 : Nat) : ℤ) - ((0 : Nat) : ℤ)) / 1000)) :=
  ⟨by decide,
   uptime_floor_seconds Vite.initialCounters Webpack.initialCounters 0 5500
     (by decide)⟩

/-- Claim C8: the detectors are total and fail soft — an unreadable or
unparsable package.json yields the build-tool sentinel default in both
variants, and when no lockfile is readable detectPackageManager yields npm
(every throwing read is embedded as an Option/Bool input, so no exception
can cross the boundary). -/
theorem detection_fails_soft :
    (∀ root : ProjectRoot, root.packageJson = none →
      Vite.detectFramework root = { name := "vite", version := "--" }
      ∧ Webpack.detectFramework root = { name := "webpack", version := "--" })
    ∧ (∀ root : ProjectRoot, (∀ f, root.lockReadable f = false) →
      detectPackageManager root = "npm") := by
  constructor
  · intro root h
    constructor <;>
      simp [Vite.detectFramework, Webpack.detectFramework, h]
  · intro root h
    simp [detectPackageManager, detectPackageManagerLoop,
      lockfileNames, managerNames, h]

/-- Claim C8, witness. -/
theorem detection_fails_soft_witness :
    (Vite.detectFramework { packageJson := none, lockReadable := fun _ => false }
        = { name := "vite", version := "--" }
      ∧ Webpack.detectFramework
          { packageJson := none, lockReadable := fun _ => false }
        = { name := "webpack", version := "--" })
    ∧ detectPackageManager
        { packageJson := none, lockReadable := fun _ => false } = "npm" :=
  ⟨detection_fails_soft.1 _ rfl, detection_fails_soft.2 _ (fun _ => rfl)⟩

/-- Claim C9: in the Vite provider a connection event increments
openConnections by one, no event handler ever decreases it, and hence the
value reported by /__hud after any event sequence is at least the starting
value (monotonically non-decreasing over the process lifetime). -/
theorem openConnections_monotone :
    (∀ s : Vite.Counters,
      (Vite.step s Vite.Event.wsConnection).openConnections
        = s.openConnections + 1)
    ∧ (∀ (s : Vite.Counters) (e : Vite.Event),
      s.openConnections ≤ (Vite.step s e).openConnections)
    ∧ (∀ (s : Vite.Counters) (events : List Vite.Event) (startTime now : Nat),
      ∃ r, Vite.middleware (Vite.run s events) startTime now "/__hud"
            = HandlerResult.respond r
          ∧ s.openConnections ≤ r.body.openConnections) := by
  refine ⟨fun s => rfl, Vite.openConnections_step_mono,
    fun s events startTime now =>
      ⟨_, Vite.middleware_hud_response _ _ _, ?_⟩⟩
  simpa using Vite.openConnections_run_mono s events

/-- Claim C10: the Webpack /__hud middleware reports openConnections = 0 in
every response, whatever done events preceded the request — the field is the
hard-coded constant 0, never a real connection count. -/
theorem webpack_openConnections_always_zero (s : Webpack.Counters)
    (events : List Webpack.DoneStats) (startTime now : Nat) :
    ∃ r, Webpack.hudDevServerMiddleware (Webpack.runDone s events)
            startTime now "/__hud" = HandlerResult.respond r
        ∧ r.body.openConnections = 0 :=
  ⟨_, Webpack.middleware_hud_zero _ _ _, rfl⟩

end FrontendHud
